import Mathlib

/-!
Verification development for the VanguardEngine render-graph frame core.

The render-graph engine itself (RenderGraph.h/.cpp, RenderPass, the resource
registry and the cvar manager) is not part of the available sources; only its
callers are (Source/Rendering/Clouds.cpp, Source/Editor/Editor.cpp,
Source/Editor/CvarHelpers.cpp, Source/Core/Engine.cpp).  The graph, registry
and scheduler are therefore modelled from the specification (spec.md §3, §4.1,
§4.2, §4.4, §8), while the technique-side build sequences (Clouds::Render,
Editor::Update, CvarHelpers) are embedded directly from the C++ sources.
-/

namespace VanguardSpec

/-- Modelled from the spec: a `RenderResource` tag (spec.md §3 "ResourceTag",
source type `RenderResource` used throughout Clouds.cpp).  An opaque logical
resource identifier; `id = 0` is the zero/uninitialized history sentinel that
Clouds::Initialize stores into the `lastFrame*` members (Clouds.cpp:124-126)
and that the graph must tolerate (spec.md §3 "History Handle"). -/
structure RenderResource where
  id : Nat
deriving DecidableEq

/-- Execution queue of a pass (spec.md §3, source enum `ExecutionQueue`). -/
inductive ExecutionQueue where
  | Graphics
  | Compute
deriving DecidableEq

/-- Read bind kind (source enum `ResourceBind`); irrelevant to scheduling but
kept for fidelity to the call sites in Clouds.cpp. -/
inductive ResourceBind where
  | SRV
  | UAV
  | CBV
deriving DecidableEq

/-- Output bind kind (source enum `OutputBind`). -/
inductive OutputBind where
  | RTV
  | DSV
deriving DecidableEq

/-- Load policy for `Output` declarations (spec.md §4.1, source `LoadType`). -/
inductive LoadType where
  | Preserve
  | Clear
  | Discard
deriving DecidableEq

/-- Transient resource description (spec.md §3 "Transient Resource
Description", source `TransientTextureDescription` as used in
Clouds.cpp:167-180, 255-261, 327-347).  `width = 0` / `height = 0` mean
"derive from `resolutionScale` against the current output resolution". -/
structure TransientTextureDescription where
  width : Nat
  height : Nat
  depth : Nat
  resolutionScale : ℚ
  format : Nat
deriving DecidableEq

/-- DXGI format codes used by the clouds passes (values of the DXGI enum). -/
def DXGI_FORMAT_R16G16B16A16_FLOAT : Nat := 10

def DXGI_FORMAT_R32_FLOAT : Nat := 41

def DXGI_FORMAT_R16_FLOAT : Nat := 54

/-- Modelled from the spec: one declared pass (spec.md §3 "Pass"): a name, an
execution queue, the build-time enabled predicate already evaluated to a
boolean, the transient resources created through this pass builder, and the
declared read and write tag ids in declaration order.  The command-recording
callback (`Bind`) only records GPU commands (spec.md §4.3) and is modelled
separately where a claim needs its logic. -/
structure RGPass where
  name : String
  queue : ExecutionQueue
  enabled : Bool
  creates : List (Nat × TransientTextureDescription)
  reads : List Nat
  writes : List Nat
deriving DecidableEq

/-- Modelled from the spec: the render graph build state (spec.md §4.1).
`nextId` is the tag allocator; it is threaded across frames by the resource
manager so a tag id is never reused by a later frame's graph.  `imports` maps
tag ids of imported persistent resources to their persistent handles. -/
structure RenderGraph where
  nextId : Nat
  imports : List (Nat × Nat)
  passes : List RGPass
deriving DecidableEq

/-- Modelled from the spec: `graph.Import(persistentHandle) -> ResourceTag`
(spec.md §4.1) wraps an existing long-lived resource as a tag usable in this
frame's graph. -/
def RenderGraph.Import (g : RenderGraph) (handle : Nat) : RenderGraph × RenderResource :=
  ({ g with nextId := g.nextId + 1, imports := g.imports ++ [(g.nextId, handle)] },
   { id := g.nextId })

/-- Modelled from the spec: `AddPass(name, queue, enabledPredicate)` (spec.md
§4.1) registers a new pass; the builder calls below mutate the most recently
added pass, matching the C++ usage where `AddPass` returns a reference. -/
def RenderGraph.AddPass (g : RenderGraph) (name : String) (queue : ExecutionQueue)
    (enabled : Bool) : RenderGraph :=
  { g with passes := g.passes ++
      [{ name := name, queue := queue, enabled := enabled, creates := [], reads := [], writes := [] }] }

/-- Applies a builder mutation to the most recently added pass. -/
def RenderGraph.onLast (g : RenderGraph) (f : RGPass → RGPass) : RenderGraph :=
  { g with passes := g.passes.dropLast ++ (g.passes.getLast?.map f).toList }

/-- Modelled from the spec: `pass.Read(tag, bindKind)` (spec.md §4.1) declares
a dependency edge from the last writer of `tag` to this pass. -/
def RenderGraph.Read (g : RenderGraph) (tag : RenderResource) (_rb : ResourceBind) : RenderGraph :=
  g.onLast (fun p => { p with reads := p.reads ++ [tag.id] })

/-- Modelled from the spec: `pass.Write(tag, view)` (spec.md §4.1) declares
this pass as a new writer of `tag`; the texture view only selects the GPU
binding and is elided. -/
def RenderGraph.Write (g : RenderGraph) (tag : RenderResource) : RenderGraph :=
  g.onLast (fun p => { p with writes := p.writes ++ [tag.id] })

/-- Modelled from the spec: `pass.Output(tag, bindKind, loadPolicy)` (spec.md
§4.1) also declares this pass as a writer of `tag`. -/
def RenderGraph.Output (g : RenderGraph) (tag : RenderResource) (_ob : OutputBind)
    (_lt : LoadType) : RenderGraph :=
  g.onLast (fun p => { p with writes := p.writes ++ [tag.id] })

/-- Modelled from the spec: `pass.Create(transientDescription, debugName) ->
ResourceTag` (spec.md §4.1) allocates a new logical transient resource scoped
to this frame's graph and returns its tag immediately. -/
def RenderGraph.Create (g : RenderGraph) (d : TransientTextureDescription) :
    RenderGraph × RenderResource :=
  ({ (g.onLast (fun p => { p with creates := p.creates ++ [(g.nextId, d)] })) with
      nextId := g.nextId + 1 },
   { id := g.nextId })

/-- Technique-owned state of the clouds component: the dirty flag, the
persistent texture handles created in Clouds::Initialize, and the `lastFrame*`
history tags (Clouds.h fields used by Clouds.cpp). -/
structure CloudsState where
  dirty : Bool
  weather : Nat
  baseShapeNoise : Nat
  detailShapeNoise : Nat
  cirrusClouds : Nat
  lastFrameScatteringUpscaled : RenderResource
  lastFrameDepthUpscaled : RenderResource
  lastFrameVisibilityUpscaled : RenderResource
deriving DecidableEq

/-- Return value of Clouds::Render (Clouds.cpp:418). -/
structure CloudResources where
  scatteringTransmittance : RenderResource
  depth : RenderResource
  skyVisibility : RenderResource
  cirrus : RenderResource
  weather : RenderResource
deriving DecidableEq

/-- Embedding of Clouds::Render (Clouds.cpp:129-419): the exact sequence of
Import / AddPass / Create / Read / Write / Output calls against the graph, the
dirty-gated noise pass (lines 138-155), the weather pass (157-162), the clouds
pass (166-250), the visibility pass gated on the `renderLightShafts` cvar
(252-324), the upscale pass (326-412), and the reassignment of the
`lastFrame*` history tags (414-416).  The command-recording callbacks record
GPU work only and are modelled separately (`upscaleOldBinding`). -/
def Clouds.Render (s : CloudsState) (g0 : RenderGraph) (cloudRenderScale : ℚ)
    (renderLightShafts : Int) (blueNoise : Nat)
    (cameraBuffer depthStencil atmosphereIrradiance : RenderResource) :
    CloudsState × RenderGraph × CloudResources :=
  let p1 := g0.Import s.weather
  let g1 := p1.1
  let weatherTag := p1.2
  let p2 := g1.Import s.baseShapeNoise
  let g2 := p2.1
  let baseShapeNoiseTag := p2.2
  let p3 := g2.Import s.detailShapeNoise
  let g3 := p3.1
  let detailShapeNoiseTag := p3.2
  let p4 := g3.Import s.cirrusClouds
  let g4 := p4.1
  let cirrusTag := p4.2
  let p5 := g4.Import blueNoise
  let g5 := p5.1
  let blueNoiseTag := p5.2
  let step6 :=
    if s.dirty then
      let ga := g5.AddPass ("Clouds Noise Pass") ExecutionQueue.Compute true
      let gb := ga.Write baseShapeNoiseTag
      let gc := gb.Write detailShapeNoiseTag
      (gc, { s with dirty := false })
    else (g5, s)
  let g6 := step6.1
  let s1 := step6.2
  let g7 := (g6.AddPass ("Weather Pass") ExecutionQueue.Compute true).Write weatherTag
  let g8 := g7.AddPass ("Clouds Pass") ExecutionQueue.Graphics true
  let p9 := g8.Create
    { width := 0, height := 0, depth := 1, resolutionScale := cloudRenderScale,
      format := DXGI_FORMAT_R16G16B16A16_FLOAT }
  let g9 := p9.1
  let cloudOutput := p9.2
  let p10 := g9.Create
    { width := 0, height := 0, depth := 1, resolutionScale := cloudRenderScale,
      format := DXGI_FORMAT_R32_FLOAT }
  let g10 := p10.1
  let cloudDepth := p10.2
  let g11a := g10.Read cameraBuffer ResourceBind.SRV
  let g11b := g11a.Read weatherTag ResourceBind.SRV
  let g11c := g11b.Read baseShapeNoiseTag ResourceBind.SRV
  let g11d := g11c.Read detailShapeNoiseTag ResourceBind.SRV
  let g11e := g11d.Read depthStencil ResourceBind.SRV
  let g11f := g11e.Read blueNoiseTag ResourceBind.SRV
  let g11g := g11f.Read atmosphereIrradiance ResourceBind.SRV
  let g11h := g11g.Output cloudOutput OutputBind.RTV LoadType.Preserve
  let g11 := g11h.Write cloudDepth
  let g12 := g11.AddPass ("Clouds Sky Visibility Pass") ExecutionQueue.Compute
    (renderLightShafts > 0)
  let p13 := g12.Create
    { width := 0, height := 0, depth := 1, resolutionScale := cloudRenderScale,
      format := DXGI_FORMAT_R16_FLOAT }
  let g13 := p13.1
  let cloudVisibility := p13.2
  let g14a := g13.Read cameraBuffer ResourceBind.SRV
  let g14b := g14a.Read weatherTag ResourceBind.SRV
  let g14c := g14b.Read baseShapeNoiseTag ResourceBind.SRV
  let g14d := g14c.Read depthStencil ResourceBind.SRV
  let g14e := g14d.Read blueNoiseTag ResourceBind.SRV
  let g14f := g14e.Read atmosphereIrradiance ResourceBind.SRV
  let g14 := g14f.Write cloudVisibility
  let g15 := g14.AddPass ("Clouds Upscale Pass") ExecutionQueue.Compute true
  let p16 := g15.Create
    { width := 0, height := 0, depth := 1, resolutionScale := 1,
      format := DXGI_FORMAT_R16G16B16A16_FLOAT }
  let g16 := p16.1
  let cloudOutputUpscaled := p16.2
  let p17 := g16.Create
    { width := 0, height := 0, depth := 1, resolutionScale := 1,
      format := DXGI_FORMAT_R32_FLOAT }
  let g17 := p17.1
  let cloudDepthUpscaled := p17.2
  let p18 := g17.Create
    { width := 0, height := 0, depth := 1, resolutionScale := 1,
      format := DXGI_FORMAT_R16_FLOAT }
  let g18 := p18.1
  let cloudVisibilityUpscaled := p18.2
  let g19a := g18.Read cameraBuffer ResourceBind.SRV
  let g19b := g19a.Read depthStencil ResourceBind.SRV
  let g19c := g19b.Read cloudOutput ResourceBind.SRV
  let g19d := g19c.Read cloudDepth ResourceBind.SRV
  let g19e := g19d.Read cloudVisibility ResourceBind.SRV
  let g19f := g19e.Read s1.lastFrameScatteringUpscaled ResourceBind.SRV
  let g19g := g19f.Read s1.lastFrameDepthUpscaled ResourceBind.SRV
  let g19h := g19g.Read s1.lastFrameVisibilityUpscaled ResourceBind.SRV
  let g19i := g19h.Write cloudOutputUpscaled
  let g19j := g19i.Write cloudDepthUpscaled
  let g19 := g19j.Write cloudVisibilityUpscaled
  let s2 := { s1 with
    lastFrameScatteringUpscaled := cloudOutputUpscaled,
    lastFrameDepthUpscaled := cloudDepthUpscaled,
    lastFrameVisibilityUpscaled := cloudVisibilityUpscaled }
  (s2, g19,
   { scatteringTransmittance := cloudOutputUpscaled, depth := cloudDepthUpscaled,
     skyVisibility := cloudVisibilityUpscaled, cirrus := cirrusTag, weather := weatherTag })

/-- The clouds technique state right after Clouds::Initialize
(Clouds.cpp:63-127): the dirty flag is set, the persistent handles are the
resource-manager handles created there (numbered 1-4 in the scenario below),
and the three `lastFrame*` history tags carry the zero sentinel
(Clouds.cpp:124-126). -/
def initialCloudsState : CloudsState :=
  { dirty := true, weather := 1, baseShapeNoise := 2, detailShapeNoise := 3,
    cirrusClouds := 4,
    lastFrameScatteringUpscaled := { id := 0 },
    lastFrameDepthUpscaled := { id := 0 },
    lastFrameVisibilityUpscaled := { id := 0 } }

/-- Pairs every list element with its position, used to keep declaration
indices through enabled-predicate filtering. -/
def withIdx {α : Type} (n : Nat) : List α → List (Nat × α)
  | [] => []
  | a :: rest => (n, a) :: withIdx (n + 1) rest

/-- Modelled from the spec: the scheduled execution order (spec.md §4.1
"Scheduling algorithm"): declaration order restricted to the passes that
remain after enabled-predicate filtering (stable, deterministic), tagged with
each pass's declaration index. -/
def schedule (g : RenderGraph) : List (Nat × RGPass) :=
  (withIdx 0 g.passes).filter (fun e => e.2.enabled)

/-- The scheduled pass list without declaration indices. -/
def execOrder (g : RenderGraph) : List RGPass :=
  (schedule g).map (fun e => e.2)

/-- Modelled from the spec: the registry's record of one materialized
transient resource (spec.md §4.2): the concrete backing resource id and the
absolute dimensions resolved from the description. -/
structure ResolvedTexture where
  concrete : Nat
  width : Nat
  height : Nat
  depth : Nat
  format : Nat
deriving DecidableEq

/-- Modelled from the spec: relative-size resolution (spec.md §8): a zero
width/height is derived from the resolution scale against the authoritative
current output resolution, `width == round(scale * currentOutputWidth)`. -/
def resolveDims (outputWidth outputHeight : Nat) (d : TransientTextureDescription) : Nat × Nat :=
  ((if d.width = 0 then (round (d.resolutionScale * (outputWidth : ℚ))).toNat else d.width),
   (if d.height = 0 then (round (d.resolutionScale * (outputHeight : ℚ))).toNat else d.height))

/-- The transient creations of the scheduled (enabled) passes, in declaration
order; creations of predicate-disabled passes are excluded (spec.md §4.1). -/
def enabledCreates (g : RenderGraph) : List (Nat × TransientTextureDescription) :=
  (g.passes.filter (fun p => p.enabled)).flatMap (fun p => p.creates)

/-- Modelled from the spec: materialization of a list of transient creations,
allocating consecutive concrete backing resources starting at `c0` and
resolving relative dimensions exactly once against the output resolution
(spec.md §4.2). -/
def materializeCreates (outputWidth outputHeight : Nat) :
    Nat → List (Nat × TransientTextureDescription) → List (Nat × ResolvedTexture)
  | _, [] => []
  | c, (t, d) :: rest =>
    (t, { concrete := c, width := (resolveDims outputWidth outputHeight d).1,
          height := (resolveDims outputWidth outputHeight d).2,
          depth := d.depth, format := d.format }) ::
      materializeCreates outputWidth outputHeight (c + 1) rest

/-- Modelled from the spec: the per-frame transient materialization map of the
registry (spec.md §4.2). -/
def materialize (g : RenderGraph) (outputWidth outputHeight c0 : Nat) :
    List (Nat × ResolvedTexture) :=
  materializeCreates outputWidth outputHeight c0 (enabledCreates g)

/-- Modelled from the spec: `Get(tag)` of the resource registry (spec.md
§4.2): a tag resolves to this frame's materialized transient, or to the
persistent handle it imports, or to the previous frame's retained
materialization — the single generation of history kept per stream for the
temporal-history convention (spec.md §4.4). -/
def Resolve (g : RenderGraph) (retained : List (Nat × ResolvedTexture))
    (outputWidth outputHeight c0 : Nat) (t : Nat) : Option Nat :=
  match (materialize g outputWidth outputHeight c0).lookup t with
  | some r => some r.concrete
  | none =>
    match g.imports.lookup t with
    | some h => some h
    | none => (retained.lookup t).map (fun r => r.concrete)

/-- Modelled from the spec: the build-time contract for one read (spec.md
§4.1, §4.4, §3): a read is valid when the tag already has a writer declared
earlier in build order (`priorWriters`), or is imported this frame, or is the
tolerated zero history sentinel, or is retained previous-frame history. -/
def readOk (imports : List (Nat × Nat)) (retained : List (Nat × ResolvedTexture))
    (priorWriters : List Nat) (t : Nat) : Bool :=
  decide (t = 0) || (imports.lookup t).isSome || decide (t ∈ priorWriters) ||
    (retained.lookup t).isSome

/-- Modelled from the spec: build-time validation of all declared reads
(spec.md §4.1 "Failure/edge cases"), walking the passes in declaration order
and accumulating the write tags of enabled passes; disabled passes and their
accesses are skipped entirely. -/
def validateFrom (imports : List (Nat × Nat)) (retained : List (Nat × ResolvedTexture)) :
    List Nat → List RGPass → Bool
  | _, [] => true
  | pw, p :: rest =>
    if p.enabled then
      (p.reads.all (readOk imports retained (pw ++ p.writes)) &&
        validateFrom imports retained (pw ++ p.writes) rest)
    else validateFrom imports retained pw rest

/-- Modelled from the spec: the graph build (spec.md §4.1): validation is the
fail-fast assertion point for contract violations; on success the scheduled
execution order is produced. -/
def RenderGraph.build (g : RenderGraph) (retained : List (Nat × ResolvedTexture)) :
    Except String (List (Nat × RGPass)) :=
  if validateFrom g.imports retained [] g.passes then .ok (schedule g)
  else .error ("render graph assertion: pass reads a tag with no writer")

/-- Whether the graph build succeeded. -/
def buildOk (g : RenderGraph) (retained : List (Nat × ResolvedTexture)) : Bool :=
  match g.build retained with
  | .ok _ => true
  | .error _ => false

/-- A dependency edge of the scheduled order: the producer (last writer of the
tag before the consumer) and the consumer, with their queues. -/
structure Edge where
  producerIdx : Nat
  consumerIdx : Nat
  producerQueue : ExecutionQueue
  consumerQueue : ExecutionQueue
  tag : Nat
deriving DecidableEq

/-- The last scheduled writer of tag `t` strictly before position `j` of the
scheduled order (spec.md §4.1: "a pass only executes after all passes that
most-recently wrote each tag it reads"). -/
def lastWriterBefore (order : List RGPass) (j : Nat) (t : Nat) : Option Nat :=
  (List.range j).reverse.find? (fun i =>
    match order[i]? with
    | some q => q.writes.contains t
    | none => false)

/-- The dependency edges into the pass at position `j` of the scheduled
order. -/
def edgesAt (order : List RGPass) (j : Nat) (p : RGPass) : List Edge :=
  p.reads.filterMap (fun t =>
    match lastWriterBefore order j t with
    | some i =>
      match order[i]? with
      | some q =>
        some { producerIdx := i, consumerIdx := j, producerQueue := q.queue,
               consumerQueue := p.queue, tag := t }
      | none => none
    | none => none)

/-- All dependency edges of a scheduled order. -/
def graphEdges (order : List RGPass) : List Edge :=
  (withIdx 0 order).flatMap (fun jp => edgesAt order jp.1 jp.2)

/-- Modelled from the spec: edges whose producer and consumer live on
different queues require an inserted cross-queue synchronization point
(spec.md §4.1 "Scheduling algorithm"). -/
def crossQueueSyncs (order : List RGPass) : List Edge :=
  (graphEdges order).filter (fun e => decide (e.producerQueue ≠ e.consumerQueue))

/-- Modelled from the spec: same-queue edges require only a resource-state
transition barrier, no queue-level wait (spec.md §4.1). -/
def sameQueueBarriers (order : List RGPass) : List Edge :=
  (graphEdges order).filter (fun e => decide (e.producerQueue = e.consumerQueue))

/-- One frame of the scenario used for the concrete claims: the caller imports
the camera buffer (persistent handle 6), the depth stencil (7) and the
atmosphere irradiance buffer (8) — resources produced outside the clouds
technique — then Clouds::Render declares its passes.  Persistent handle 5 is
the blue-noise texture of RenderUtils.  `cloudRenderScale` and
`renderLightShafts` are the cvar values read at lines 164 and 252. -/
structure FrameResult where
  graph : RenderGraph
  cloudsState : CloudsState
  resources : CloudResources
deriving DecidableEq

/-- Runs one frame of the scenario: a fresh graph whose tag allocator
continues from `nextId` (tag ids are never reused across frames), the three
caller-side imports, then the Clouds::Render build sequence. -/
def runFrame (nextId : Nat) (s : CloudsState) (cloudRenderScale : ℚ)
    (renderLightShafts : Int) : FrameResult :=
  let g0 : RenderGraph := { nextId := nextId, imports := [], passes := [] }
  let q1 := g0.Import 6
  let q2 := q1.1.Import 7
  let q3 := q2.1.Import 8
  let r := Clouds.Render s q3.1 cloudRenderScale renderLightShafts 5 q1.2 q2.2 q3.2
  { graph := r.2.1, cloudsState := r.1, resources := r.2.2 }

/-- Frame 1 of the scenario: initial clouds state (dirty, zero history
sentinels), cloudRenderScale = 1/4 (the cvar default 0.25), light shafts
enabled, default output resolution 1600x900 (Engine.cpp:84-85). -/
def frame1 : FrameResult := runFrame 1 initialCloudsState (1 / 4) 1

/-- The transient materializations of frame 1 (concrete backing resources
numbered from 1000). -/
def retainedAfterFrame1 : List (Nat × ResolvedTexture) :=
  materialize frame1.graph 1600 900 1000

/-- Frame 2 of the scenario: same settings, clouds state threaded from
frame 1. -/
def frame2 : FrameResult :=
  runFrame frame1.graph.nextId frame1.cloudsState (1 / 4) 1

/-- The transient materializations of frame 2. -/
def retainedAfterFrame2 : List (Nat × ResolvedTexture) :=
  materialize frame2.graph 1600 900 (1000 + (enabledCreates frame1.graph).length)

/-- Frame 3 of the scenario. -/
def frame3 : FrameResult :=
  runFrame frame2.graph.nextId frame2.cloudsState (1 / 4) 1

/-- Registry resolution in frame 2, with frame 1's materializations retained
as the single generation of history (spec.md §4.4). -/
def frame2Resolve (t : Nat) : Option Nat :=
  Resolve frame2.graph retainedAfterFrame1 1600 900
    (1000 + (enabledCreates frame1.graph).length) t

/-- Frame 1 of a variant scenario in which the `renderLightShafts` cvar is 0,
so the Clouds Sky Visibility Pass is added with a false enabled predicate
(Clouds.cpp:252-254). -/
def frame1NoLightShafts : FrameResult := runFrame 1 initialCloudsState (1 / 4) 0

/-- The reads declared by the most recently added pass of a frame's graph; for
the clouds frames this is the Clouds Upscale Pass (Clouds.cpp:326-358). -/
def lastPassReads (f : FrameResult) : List Nat :=
  match f.graph.passes.getLast? with
  | some p => p.reads
  | none => []

/-- Embedding of the old-texture slot logic of the Clouds Upscale Pass bind
callback (Clouds.cpp:391-399): each `bindData.old*Texture` field is first set
to 0 and only overwritten with the resolved resource when the captured history
tag is not the zero sentinel:
`bindData.oldScatteringTransmittanceTexture = 0;
 if (oldUpscaled.id != 0)
   bindData.oldScatteringTransmittanceTexture = resources.Get(oldUpscaled);`. -/
def upscaleOldBinding (resolve : RenderResource → Nat) (old : RenderResource) : Nat :=
  if old.id ≠ 0 then resolve old else 0

/-- One registered editor keybind (Editor.h:29): the tracked key, the recorded
pressed state from the previous update, and the bound callback (modelled as an
opaque callback id). -/
structure Keybind where
  key : Nat
  state : Bool
  callbackId : Nat
deriving DecidableEq

/-- Embedding of Editor::BindKey (Editor.cpp:151-154):
`keybinds.emplace_back(key, false, std::move(function));` — the new keybind is
appended with a not-pressed recorded state. -/
def Editor.BindKey (keybinds : List Keybind) (key : Nat) (callbackId : Nat) : List Keybind :=
  keybinds ++ [{ key := key, state := false, callbackId := callbackId }]

/-- Embedding of the keybind-processing loop of Editor::Update
(Editor.cpp:54-63): for each keybind, the key's current pressed state is read
(`ImGui::IsKeyDown`, modelled as the input function `isKeyDown`), the callback
is invoked when the key is down and the recorded state is not-pressed, and the
recorded state is overwritten with the current pressed state.  Returns the
updated keybind list and the ids of the invoked callbacks in order. -/
def Editor.Update (isKeyDown : Nat → Bool) : List Keybind → List Keybind × List Nat
  | [] => ([], [])
  | kb :: rest =>
    let pressed := isKeyDown kb.key
    let next := Editor.Update isKeyDown rest
    ({ kb with state := pressed } :: next.1,
     (if pressed && !kb.state then [kb.callbackId] else []) ++ next.2)

/-- Modelled from the spec: the console-variable store (spec.md §6
"Configuration values"; Core/ConsoleVariable.h is not among the sources), as
an association list from hashed cvar names to values.
`CvarManager::SetVariable(cvar, v)` overwrites the value stored under an
existing name. -/
def CvarManager.SetVariable {β : Type} (store : List (Nat × β)) (cvar : Nat) (v : β) :
    List (Nat × β) :=
  store.map (fun e => if e.1 = cvar then (e.1, v) else e)

/-- Embedding of CvarHelpers::Checkbox (CvarHelpers.cpp:15-31).
`GetVariable<int>` is the store lookup; when it fails the function draws the
disabled notice and returns with the store untouched.  Otherwise
`bool value = *cvarPtr` converts the stored int to a bool (nonzero is true),
the ImGui checkbox may flip it (modelled by the opaque `widget` function), and
`if (value != *cvarPtr) SetVariable<int>(cvar, value)` compares the bool
promoted back to an int (0 or 1) against the stored int.  Returns the
resulting store and whether SetVariable was called. -/
def CvarHelpers.Checkbox (store : List (Nat × Int)) (cvar : Nat) (widget : Bool → Bool) :
    List (Nat × Int) × Bool :=
  match store.lookup cvar with
  | none => (store, false)
  | some v =>
    let value : Bool := v != 0
    let value2 := widget value
    if (if value2 then (1 : Int) else 0) != v then
      (CvarManager.SetVariable store cvar (if value2 then (1 : Int) else 0), true)
    else (store, false)

/-- Embedding of the float overload of CvarHelpers::Slider
(CvarHelpers.cpp:33-49): lookup, optional widget mutation of the local copy
(the min/max slider bounds are enforced inside ImGui and folded into
`widget`), and SetVariable exactly when the widget result differs from the
stored value. -/
def CvarHelpers.SliderFloat (store : List (Nat × ℚ)) (cvar : Nat) (widget : ℚ → ℚ) :
    List (Nat × ℚ) × Bool :=
  match store.lookup cvar with
  | none => (store, false)
  | some v =>
    let value := widget v
    if value != v then (CvarManager.SetVariable store cvar value, true)
    else (store, false)

/-- Embedding of the int overload of CvarHelpers::Slider
(CvarHelpers.cpp:51-67). -/
def CvarHelpers.SliderInt (store : List (Nat × Int)) (cvar : Nat) (widget : Int → Int) :
    List (Nat × Int) × Bool :=
  match store.lookup cvar with
  | none => (store, false)
  | some v =>
    let value := widget v
    if value != v then (CvarManager.SetVariable store cvar value, true)
    else (store, false)

/-- The int the checkbox widget's boolean result is promoted to when compared
with, and stored into, the int cvar (CvarHelpers.cpp:27-29). -/
def checkboxResultInt (widget : Bool → Bool) (v : Int) : Int :=
  if widget (v != 0) then 1 else 0

/-- A minimal graph exercising the fail-fast rule: one enabled pass reads tag
99 which no pass writes and no import or retained history provides. -/
def orphanReadGraph : RenderGraph :=
  { nextId := 100, imports := [],
    passes := [{ name := "Orphan Read Pass", queue := ExecutionQueue.Compute,
                 enabled := true, creates := [], reads := [99], writes := [] }] }

/-- Writes declared by the most recently added pass of a frame's graph. -/
def lastPassWrites (f : FrameResult) : List Nat :=
  match f.graph.passes.getLast? with
  | some p => p.writes
  | none => []

lemma le_fst_of_mem_withIdx {α : Type} :
    ∀ (l : List α) (n : Nat) (x : Nat × α), x ∈ withIdx n l → n ≤ x.1 := by
  intro l
  induction l with
  | nil => intro n x h; simp [withIdx] at h
  | cons a rest ih =>
    intro n x h
    rcases List.mem_cons.mp h with h | h
    · subst h; exact Nat.le_refl n
    · exact Nat.le_of_succ_le (ih (n + 1) x h)

lemma pairwise_withIdx {α : Type} :
    ∀ (l : List α) (n : Nat), List.Pairwise (fun a b => a.1 < b.1) (withIdx n l) := by
  intro l
  induction l with
  | nil => intro n; simp [withIdx]
  | cons a rest ih =>
    intro n
    refine List.Pairwise.cons ?_ (ih (n + 1))
    intro x hx
    exact Nat.lt_of_lt_of_le (Nat.lt_succ_self n) (le_fst_of_mem_withIdx rest (n + 1) x hx)

lemma get_mem_withIdx {α : Type} :
    ∀ (l : List α) (n : Nat) (i : Fin l.length), (n + i.val, l.get i) ∈ withIdx n l := by
  intro l
  induction l with
  | nil => intro n i; exact absurd i.2 (by simp)
  | cons a rest ih =>
    intro n i
    rcases i with ⟨iv, hi⟩
    cases iv with
    | zero => simp [withIdx]
    | succ k =>
      have hk : k < rest.length := Nat.lt_of_succ_lt_succ hi
      have := ih (n + 1) ⟨k, hk⟩
      refine List.mem_cons.mpr (Or.inr ?_)
      have harith : n + (k + 1) = (n + 1) + k := by omega
      rw [harith]
      exact this

lemma pairwise_schedule (g : RenderGraph) :
    List.Pairwise (fun a b => a.1 < b.1) (schedule g) :=
  List.Pairwise.filter _ (pairwise_withIdx g.passes 0)

lemma mem_schedule_of_enabled (g : RenderGraph) (i : Fin g.passes.length)
    (h : (g.passes.get i).enabled = true) : (i.val, g.passes.get i) ∈ schedule g := by
  have hm := get_mem_withIdx g.passes 0 i
  rw [Nat.zero_add] at hm
  exact List.mem_filter.mpr ⟨hm, h⟩

/-- C2: for every pair of passes P1 and P2 declared in one frame's graph build
where P1 writes a tag T and P2 later declares a read of T, the scheduled
execution order places P1 (with its declaration index) before P2, regardless
of unrelated pass declarations interleaved between them. -/
theorem writer_scheduled_before_reader (g : RenderGraph) (i j : Fin g.passes.length)
    (t : Nat) (hij : i.val < j.val)
    (hie : (g.passes.get i).enabled = true) (hiw : t ∈ (g.passes.get i).writes)
    (hje : (g.passes.get j).enabled = true) (hjr : t ∈ (g.passes.get j).reads) :
    ∃ i' j' : Fin (schedule g).length, i'.val < j'.val ∧
      (schedule g).get i' = (i.val, g.passes.get i) ∧
      (schedule g).get j' = (j.val, g.passes.get j) := by
  have hwrit : t ∈ (g.passes.get i).writes := hiw
  have hread : t ∈ (g.passes.get j).reads := hjr
  clear hiw hjr
  obtain ⟨i', hi'⟩ := List.mem_iff_get.mp (mem_schedule_of_enabled g i hie)
  obtain ⟨j', hj'⟩ := List.mem_iff_get.mp (mem_schedule_of_enabled g j hje)
  refine ⟨i', j', ?_, hi', hj'⟩
  have hp := List.pairwise_iff_get.mp (pairwise_schedule g)
  rcases Nat.lt_trichotomy i'.val j'.val with h | h | h
  · exact h
  · exfalso
    have hfin : i' = j' := Fin.ext h
    rw [hfin, hj'] at hi'
    have : j.val = i.val := congrArg Prod.fst hi'
    omega
  · exfalso
    have := hp j' i' h
    rw [hi', hj'] at this
    simp only at this
    omega

/-- Witness for C2 at the concrete frame-1 clouds graph: the Weather Pass
(declaration index 1, writer of the weather tag 4) is scheduled before the
Clouds Pass (declaration index 2, reader of tag 4). -/
theorem writer_scheduled_before_reader_witness :
    ∃ i' j' : Fin (schedule frame1.graph).length, i'.val < j'.val ∧
      (schedule frame1.graph).get i' = (1, frame1.graph.passes.get ⟨1, by decide⟩) ∧
      (schedule frame1.graph).get j' = (2, frame1.graph.passes.get ⟨2, by decide⟩) :=
  writer_scheduled_before_reader frame1.graph ⟨1, by decide⟩ ⟨2, by decide⟩ 4
    (by decide) (by decide) (by decide) (by decide) (by decide)

lemma readOk_eq_false (imports : List (Nat × Nat)) (retained : List (Nat × ResolvedTexture))
    (pw : List Nat) (t : Nat) (ht0 : t ≠ 0) (him : imports.lookup t = none)
    (hret : retained.lookup t = none) (hpw : t ∉ pw) :
    readOk imports retained pw t = false := by
  simp [readOk, ht0, him, hret, hpw]

lemma validateFrom_eq_false_of_bad_read (imports : List (Nat × Nat))
    (retained : List (Nat × ResolvedTexture)) :
    ∀ (l : List RGPass) (pw : List Nat) (p : RGPass) (t : Nat),
      p ∈ l → p.enabled = true → t ∈ p.reads → t ≠ 0 →
      imports.lookup t = none → retained.lookup t = none →
      (∀ q ∈ l, q.enabled = true → t ∉ q.writes) → t ∉ pw →
      validateFrom imports retained pw l = false := by
  intro l
  induction l with
  | nil => intro pw p t hp; simp at hp
  | cons a rest ih =>
    intro pw p t hp hpe hpr ht0 him hret hwr hpw
    rcases List.mem_cons.mp hp with heq | hmem
    · subst heq
      have htw : t ∉ p.writes := hwr p (List.mem_cons_self p rest) hpe
      have hro : readOk imports retained (pw ++ p.writes) t = false :=
        readOk_eq_false imports retained (pw ++ p.writes) t ht0 him hret
          (by rw [List.mem_append]; push_neg; exact ⟨hpw, htw⟩)
      have hall : p.reads.all (readOk imports retained (pw ++ p.writes)) = false := by
        rw [Bool.eq_false_iff]
        intro hc
        have := (List.all_eq_true.mp hc) t hpr
        rw [hro] at this
        exact Bool.false_ne_true this
      simp [validateFrom, hpe, hall]
    · by_cases hae : a.enabled
      · have htaw : t ∉ a.writes := hwr a (List.mem_cons_self a rest) hae
        have hrec := ih (pw ++ a.writes) p t hmem hpe hpr ht0 him hret
          (fun q hq hqe => hwr q (List.mem_cons_of_mem a hq) hqe)
          (by rw [List.mem_append]; push_neg; exact ⟨hpw, htaw⟩)
        simp [validateFrom, hae, hrec]
      · have hrec := ih pw p t hmem hpe hpr ht0 him hret
          (fun q hq hqe => hwr q (List.mem_cons_of_mem a hq) hqe) hpw
        simp [validateFrom, hae, hrec]

lemma buildOk_eq_false_of_invalid (g : RenderGraph)
    (retained : List (Nat × ResolvedTexture))
    (h : validateFrom g.imports retained [] g.passes = false) :
    buildOk g retained = false := by
  simp [buildOk, RenderGraph.build, h]

/-- C3: a pass whose enabled predicate evaluated false at build time is
excluded from the schedule together with its declared accesses (first
conjunct: every scheduled entry is an enabled pass), and a later enabled pass
that reads the excluded pass's output builds without a dangling-dependency
error only if that read is itself skipped: when the read is declared and every
writer of the tag is disabled (and the tag is neither imported, nor the zero
sentinel, nor retained history), the build fails (second conjunct).  In
Clouds.cpp:326-352 the Clouds Upscale Pass reads cloudVisibility
unconditionally, so with renderLightShafts = 0 the build asserts (see the
witness). -/
theorem disabled_pass_excluded_and_dangling_read_fails :
    (∀ (g : RenderGraph) (e : Nat × RGPass), e ∈ schedule g → e.2.enabled = true) ∧
    (∀ (g : RenderGraph) (retained : List (Nat × ResolvedTexture))
       (i : Fin g.passes.length) (t : Nat),
       (g.passes.get i).enabled = true → t ∈ (g.passes.get i).reads → t ≠ 0 →
       g.imports.lookup t = none → retained.lookup t = none →
       (∀ q ∈ g.passes, q.enabled = true → t ∉ q.writes) →
       buildOk g retained = false) := by
  constructor
  · intro g e he
    rw [schedule] at he
    exact (List.mem_filter.mp he).2
  · intro g retained i t hie hir ht0 him hret hwr
    refine buildOk_eq_false_of_invalid g retained ?_
    exact validateFrom_eq_false_of_bad_read g.imports retained g.passes []
      (g.passes.get i) t (g.passes.get_mem i.val i.isLt) hie hir ht0 him hret hwr
      (by simp)

/-- Witness for C3: in the frame-1 clouds graph built with
renderLightShafts = 0 the Clouds Sky Visibility Pass is disabled, the enabled
Clouds Upscale Pass (declaration index 4) still reads its output tag 11, and
the build fails. -/
theorem disabled_pass_excluded_witness :
    buildOk frame1NoLightShafts.graph [] = false :=
  disabled_pass_excluded_and_dangling_read_fails.2 frame1NoLightShafts.graph []
    ⟨4, by decide⟩ 11 (by decide) (by decide) (by decide) (by decide) (by decide)
    (by decide)

/-- Counterexample for C4 as stated: the clouds frames contain reads of tags
with zero writers in the current frame's graph that are not imported, yet the
build succeeds rather than asserting.  On frame 1 the upscale pass reads the
zero history sentinel (Clouds.cpp:353-355 with the ids set at 124-126); on
frame 2 it reads frame 1's upscaled output tags, which no frame-2 pass writes
and frame 2 does not import. -/
theorem read_without_writer_tolerated_counterexample :
    ((0 : Nat) ∈ lastPassReads frame1) ∧
    (∀ q ∈ frame1.graph.passes, (0 : Nat) ∉ q.writes) ∧
    frame1.graph.imports.lookup 0 = none ∧
    buildOk frame1.graph [] = true ∧
    (frame1.cloudsState.lastFrameScatteringUpscaled.id ∈ lastPassReads frame2) ∧
    (∀ q ∈ frame2.graph.passes,
      frame1.cloudsState.lastFrameScatteringUpscaled.id ∉ q.writes) ∧
    frame2.graph.imports.lookup frame1.cloudsState.lastFrameScatteringUpscaled.id = none ∧
    buildOk frame2.graph retainedAfterFrame1 = true := by
  decide

/-- C4 amended: reading a tag with zero writers declared in the current
frame's graph that is not an imported resource fails the build fast with an
assertion, except for the two tolerated history cases: the zero "no history"
sentinel and a tag retained from the previous frame's materializations
(spec.md §3 "History Handle", §4.4).  First two conjuncts: the sentinel and
retained-history reads are accepted; third conjunct: any other zero-writer,
non-imported read makes the build fail. -/
theorem zero_writer_read_asserts_amended :
    (∀ (imports : List (Nat × Nat)) (retained : List (Nat × ResolvedTexture))
       (pw : List Nat), readOk imports retained pw 0 = true) ∧
    (∀ (imports : List (Nat × Nat)) (retained : List (Nat × ResolvedTexture))
       (pw : List Nat) (t : Nat), (retained.lookup t).isSome = true →
       readOk imports retained pw t = true) ∧
    (∀ (g : RenderGraph) (retained : List (Nat × ResolvedTexture))
       (i : Fin g.passes.length) (t : Nat),
       (g.passes.get i).enabled = true → t ∈ (g.passes.get i).reads → t ≠ 0 →
       g.imports.lookup t = none → retained.lookup t = none →
       (∀ q ∈ g.passes, t ∉ q.writes) →
       buildOk g retained = false) := by
  refine ⟨?_, ?_, ?_⟩
  · intro imports retained pw
    simp [readOk]
  · intro imports retained pw t h
    simp [readOk, h]
  · intro g retained i t hie hir ht0 him hret hwr
    refine buildOk_eq_false_of_invalid g retained ?_
    exact validateFrom_eq_false_of_bad_read g.imports retained g.passes []
      (g.passes.get i) t (g.passes.get_mem i.val i.isLt) hie hir ht0 him hret
      (fun q hq _ => hwr q hq) (by simp)

/-- Witness for the amended C4: a one-pass graph whose enabled pass reads the
never-written, non-imported tag 99 fails to build. -/
theorem zero_writer_read_asserts_witness :
    buildOk orphanReadGraph [] = false :=
  zero_writer_read_asserts_amended.2.2 orphanReadGraph [] ⟨0, by decide⟩ 99
    (by decide) (by decide) (by decide) (by decide) (by decide) (by decide)

lemma lookup_materializeCreates (outputWidth outputHeight : Nat) :
    ∀ (creates : List (Nat × TransientTextureDescription)) (c t : Nat)
      (d : TransientTextureDescription),
      creates.filter (fun e => e.1 == t) = [(t, d)] →
      ∃ c', (materializeCreates outputWidth outputHeight c creates).lookup t =
        some { concrete := c',
               width := (resolveDims outputWidth outputHeight d).1,
               height := (resolveDims outputWidth outputHeight d).2,
               depth := d.depth, format := d.format } := by
  intro creates
  induction creates with
  | nil => intro c t d h; simp at h
  | cons a rest ih =>
    intro c t d h
    obtain ⟨a1, a2⟩ := a
    by_cases ha : a1 = t
    · subst ha
      rw [List.filter_cons_of_pos (by simp)] at h
      rw [List.cons_eq_cons] at h
      obtain ⟨hhead, _⟩ := h
      have ha2 : a2 = d := by
        have := congrArg Prod.snd hhead
        simpa using this
      subst ha2
      exact ⟨c, by simp [materializeCreates, List.lookup]⟩
    · rw [List.filter_cons_of_neg (by simp [ha])] at h
      obtain ⟨c', hc'⟩ := ih (c + 1) t d h
      have ha2 : (t == a1) = false := beq_eq_false_iff_ne.mpr (fun hh => ha hh.symm)
      refine ⟨c', ?_⟩
      rw [materializeCreates]
      rw [List.lookup]
      rw [ha2]
      exact hc'

/-- C6: a transient resource created with width and height 0 and a resolution
scale factor, appearing exactly once among the scheduled creations of the
frame, is resolved by the registry to a single materialized entry whose width
is round(scale * currentOutputWidth) (and height likewise against the output
height). -/
theorem relative_transient_resolution (g : RenderGraph)
    (outputWidth outputHeight c0 t : Nat) (d : TransientTextureDescription)
    (hu : (enabledCreates g).filter (fun e => e.1 == t) = [(t, d)])
    (hw : d.width = 0) (hh : d.height = 0) :
    ∃ r, (materialize g outputWidth outputHeight c0).lookup t = some r ∧
      r.width = (round (d.resolutionScale * (outputWidth : ℚ))).toNat ∧
      r.height = (round (d.resolutionScale * (outputHeight : ℚ))).toNat := by
  obtain ⟨c', hc'⟩ :=
    lookup_materializeCreates outputWidth outputHeight (enabledCreates g) c0 t d hu
  exact ⟨_, hc', by simp [resolveDims, hw, hh]⟩

/-- Witness for C6 at the concrete frame-1 clouds graph: the clouds scattering
transmittance transient (tag 9, created with width = height = 0 and
resolutionScale = 1/4 at Clouds.cpp:167-173) materializes with
width = round(1/4 * 1600) = 400 and height = round(1/4 * 900) = 225. -/
theorem relative_transient_resolution_witness :
    ∃ r, (materialize frame1.graph 1600 900 1000).lookup 9 = some r ∧
      r.width = (round (((1 : ℚ) / 4) * ((1600 : Nat) : ℚ))).toNat ∧
      r.height = (round (((1 : ℚ) / 4) * ((900 : Nat) : ℚ))).toNat :=
  relative_transient_resolution frame1.graph 1600 900 1000 9
    { width := 0, height := 0, depth := 1, resolutionScale := 1 / 4,
      format := DXGI_FORMAT_R16G16B16A16_FLOAT }
    rfl rfl rfl

/-- C7: an imported tag needs no local writer — a read of it is always
accepted by build validation (first conjunct) — and in the concrete scenario
the noise and cirrus textures are imported again each frame after the dirty
flag is cleared by frame 1 (Clouds.cpp:154), have no writer in frames 2 and 3,
are read there (the noise texture by the clouds pass), and both frame builds
succeed. -/
theorem imported_without_writer_ok :
    (∀ (imports : List (Nat × Nat)) (retained : List (Nat × ResolvedTexture))
       (pw : List Nat) (t : Nat), (imports.lookup t).isSome = true →
       readOk imports retained pw t = true) ∧
    (frame1.cloudsState.dirty = false ∧
     frame2.graph.imports.lookup 19 = some 2 ∧
     frame2.graph.imports.lookup 21 = some 4 ∧
     (∀ q ∈ frame2.graph.passes, (19 : Nat) ∉ q.writes ∧ (21 : Nat) ∉ q.writes) ∧
     (19 : Nat) ∈ frame2.graph.passes.flatMap (fun p => p.reads) ∧
     buildOk frame2.graph retainedAfterFrame1 = true ∧
     frame3.graph.imports.lookup 33 = some 2 ∧
     frame3.graph.imports.lookup 35 = some 4 ∧
     (∀ q ∈ frame3.graph.passes, (33 : Nat) ∉ q.writes ∧ (35 : Nat) ∉ q.writes) ∧
     (33 : Nat) ∈ frame3.graph.passes.flatMap (fun p => p.reads) ∧
     buildOk frame3.graph retainedAfterFrame2 = true) := by
  constructor
  · intro imports retained pw t h
    simp [readOk, h]
  · decide

/-- Witness for C7: the frame-2 read of the base shape noise tag 19 (imported,
zero writers in frame 2) is accepted by validation. -/
theorem imported_without_writer_ok_witness :
    readOk frame2.graph.imports retainedAfterFrame1 [] 19 = true :=
  imported_without_writer_ok.1 frame2.graph.imports retainedAfterFrame1 [] 19
    (by decide)

lemma lastWriterBefore_lt (order : List RGPass) (j t i : Nat)
    (h : lastWriterBefore order j t = some i) : i < j := by
  have hm := List.mem_of_find?_eq_some h
  rw [List.mem_reverse] at hm
  exact List.mem_range.mp hm

/-- C8: a dependency edge whose producer and consumer are on different
execution queues is exactly what receives an inserted cross-queue
synchronization point (first conjunct), same-queue edges receive a transition
barrier and never a queue-level wait (second and third conjuncts), every edge
orders the producer strictly before the consumer (fourth conjunct), and in the
concrete frame-1 clouds graph the compute-queue Weather Pass (scheduled
position 1) writing weather tag 4 consumed by the graphics-queue Clouds Pass
(position 2) gets a cross-queue synchronization, while the same-queue
(compute) edge from the Sky Visibility Pass (position 3) to the Upscale Pass
(position 4) on tag 11 is a barrier only. -/
theorem cross_queue_sync_insertion :
    (∀ (order : List RGPass) (e : Edge),
       e ∈ crossQueueSyncs order ↔
         e ∈ graphEdges order ∧ e.producerQueue ≠ e.consumerQueue) ∧
    (∀ (order : List RGPass) (e : Edge),
       e ∈ sameQueueBarriers order ↔
         e ∈ graphEdges order ∧ e.producerQueue = e.consumerQueue) ∧
    (∀ (order : List RGPass) (e : Edge),
       e ∈ sameQueueBarriers order → e ∉ crossQueueSyncs order) ∧
    (∀ (order : List RGPass) (e : Edge),
       e ∈ graphEdges order → e.producerIdx < e.consumerIdx) ∧
    ({ producerIdx := 1, consumerIdx := 2, producerQueue := ExecutionQueue.Compute,
       consumerQueue := ExecutionQueue.Graphics, tag := 4 } ∈
         crossQueueSyncs (execOrder frame1.graph)) ∧
    ({ producerIdx := 3, consumerIdx := 4, producerQueue := ExecutionQueue.Compute,
       consumerQueue := ExecutionQueue.Compute, tag := 11 } ∈
         sameQueueBarriers (execOrder frame1.graph)) ∧
    ({ producerIdx := 3, consumerIdx := 4, producerQueue := ExecutionQueue.Compute,
       consumerQueue := ExecutionQueue.Compute, tag := 11 } ∉
         crossQueueSyncs (execOrder frame1.graph)) := by
  have hcross : ∀ (order : List RGPass) (e : Edge),
      e ∈ crossQueueSyncs order ↔
        e ∈ graphEdges order ∧ e.producerQueue ≠ e.consumerQueue := by
    intro order e
    rw [crossQueueSyncs, List.mem_filter]
    simp
  have hsame : ∀ (order : List RGPass) (e : Edge),
      e ∈ sameQueueBarriers order ↔
        e ∈ graphEdges order ∧ e.producerQueue = e.consumerQueue := by
    intro order e
    rw [sameQueueBarriers, List.mem_filter]
    simp
  refine ⟨hcross, hsame, ?_, ?_, by decide, by decide, by decide⟩
  · intro order e hb hc
    exact ((hcross order e).mp hc).2 ((hsame order e).mp hb).2
  · intro order e he
    rw [graphEdges, List.mem_flatMap] at he
    obtain ⟨jp, _, hme⟩ := he
    rw [edgesAt, List.mem_filterMap] at hme
    obtain ⟨t, _, hft⟩ := hme
    split at hft
    case h_1 i hlw =>
      split at hft
      case h_1 q hq =>
        simp only [Option.some.injEq] at hft
        subst hft
        exact lastWriterBefore_lt order jp.1 t i hlw
      case h_2 => simp at hft
    case h_2 => simp at hft

/-- Witness for C8: the concrete cross-queue edge from the Weather Pass to the
Clouds Pass satisfies producer-before-consumer. -/
theorem cross_queue_sync_insertion_witness :
    ({ producerIdx := 1, consumerIdx := 2, producerQueue := ExecutionQueue.Compute,
       consumerQueue := ExecutionQueue.Graphics, tag := 4 } : Edge).producerIdx <
      ({ producerIdx := 1, consumerIdx := 2, producerQueue := ExecutionQueue.Compute,
         consumerQueue := ExecutionQueue.Graphics, tag := 4 } : Edge).consumerIdx :=
  cross_queue_sync_insertion.2.2.2.1 (execOrder frame1.graph)
    { producerIdx := 1, consumerIdx := 2, producerQueue := ExecutionQueue.Compute,
      consumerQueue := ExecutionQueue.Graphics, tag := 4 } (by decide)

/-- Counterexample for C1 as stated: the stored history tags are not imported
into frame N+1's graph.  Clouds::Render consumes the `lastFrame*` tags through
`upscalePass.Read` (Clouds.cpp:353-355) without any `graph.Import` call: in
the concrete two-frame scenario, frame 2's import table has no entry for any
of the three tags stored at the end of frame 1, while the frame-2 upscale pass
does declare a read of them. -/
theorem clouds_history_not_imported_counterexample :
    frame2.graph.imports.lookup frame1.cloudsState.lastFrameScatteringUpscaled.id = none ∧
    frame2.graph.imports.lookup frame1.cloudsState.lastFrameDepthUpscaled.id = none ∧
    frame2.graph.imports.lookup frame1.cloudsState.lastFrameVisibilityUpscaled.id = none ∧
    frame1.cloudsState.lastFrameScatteringUpscaled.id ∈ lastPassReads frame2 ∧
    frame1.cloudsState.lastFrameDepthUpscaled.id ∈ lastPassReads frame2 ∧
    frame1.cloudsState.lastFrameVisibilityUpscaled.id ∈ lastPassReads frame2 := by
  decide

/-- C1 amended: on frame N the upscale pass writes the upscaled output tags
and Clouds::Render stores them into lastFrameScatteringUpscaled /
lastFrameDepthUpscaled / lastFrameVisibilityUpscaled (first two conjunct
groups); on frame N+1 the upscale pass reads those tags directly — without
re-importing them — and, with the registry retaining the one generation of
previous-frame materializations of the history convention, each read resolves
to the same concrete resource materialized for that tag in frame N, not a
stale or default resource (remaining conjuncts). -/
theorem clouds_history_roundtrip_amended :
    (frame1.cloudsState.lastFrameScatteringUpscaled = frame1.resources.scatteringTransmittance ∧
     frame1.cloudsState.lastFrameDepthUpscaled = frame1.resources.depth ∧
     frame1.cloudsState.lastFrameVisibilityUpscaled = frame1.resources.skyVisibility) ∧
    (frame1.resources.scatteringTransmittance.id ∈ lastPassWrites frame1 ∧
     frame1.resources.depth.id ∈ lastPassWrites frame1 ∧
     frame1.resources.skyVisibility.id ∈ lastPassWrites frame1) ∧
    (frame1.cloudsState.lastFrameScatteringUpscaled.id ∈ lastPassReads frame2 ∧
     frame1.cloudsState.lastFrameDepthUpscaled.id ∈ lastPassReads frame2 ∧
     frame1.cloudsState.lastFrameVisibilityUpscaled.id ∈ lastPassReads frame2) ∧
    ((retainedAfterFrame1.lookup frame1.cloudsState.lastFrameScatteringUpscaled.id).isSome = true ∧
     (retainedAfterFrame1.lookup frame1.cloudsState.lastFrameDepthUpscaled.id).isSome = true ∧
     (retainedAfterFrame1.lookup frame1.cloudsState.lastFrameVisibilityUpscaled.id).isSome = true) ∧
    (frame2Resolve frame1.cloudsState.lastFrameScatteringUpscaled.id =
       (retainedAfterFrame1.lookup frame1.cloudsState.lastFrameScatteringUpscaled.id).map
         (fun r => r.concrete) ∧
     frame2Resolve frame1.cloudsState.lastFrameDepthUpscaled.id =
       (retainedAfterFrame1.lookup frame1.cloudsState.lastFrameDepthUpscaled.id).map
         (fun r => r.concrete) ∧
     frame2Resolve frame1.cloudsState.lastFrameVisibilityUpscaled.id =
       (retainedAfterFrame1.lookup frame1.cloudsState.lastFrameVisibilityUpscaled.id).map
         (fun r => r.concrete)) := by
  decide

/-- C5: on the first frame the history handles carry the zero sentinel set by
Clouds::Initialize (first conjunct group), and the upscale pass bind callback
(Clouds.cpp:391-399) binds 0 for each old-texture slot instead of resolving
the sentinel tag (second group); the bound value is independent of the
resolver whenever the tag id is 0, so resolution of the sentinel is skipped
(third conjunct). -/
theorem history_sentinel_skips_resolution :
    (initialCloudsState.lastFrameScatteringUpscaled.id = 0 ∧
     initialCloudsState.lastFrameDepthUpscaled.id = 0 ∧
     initialCloudsState.lastFrameVisibilityUpscaled.id = 0) ∧
    (∀ resolve : RenderResource → Nat,
       upscaleOldBinding resolve initialCloudsState.lastFrameScatteringUpscaled = 0 ∧
       upscaleOldBinding resolve initialCloudsState.lastFrameDepthUpscaled = 0 ∧
       upscaleOldBinding resolve initialCloudsState.lastFrameVisibilityUpscaled = 0) ∧
    (∀ (resolve1 resolve2 : RenderResource → Nat) (old : RenderResource),
       old.id = 0 → upscaleOldBinding resolve1 old = upscaleOldBinding resolve2 old) := by
  refine ⟨⟨rfl, rfl, rfl⟩, fun resolve => ⟨rfl, rfl, rfl⟩, ?_⟩
  intro resolve1 resolve2 old h
  simp [upscaleOldBinding, h]

/-- Witness for C5: two different resolvers agree on the zero-sentinel tag. -/
theorem history_sentinel_skips_resolution_witness :
    upscaleOldBinding (fun _ => 5) { id := 0 } =
      upscaleOldBinding (fun _ => 9) { id := 0 } :=
  history_sentinel_skips_resolution.2.2 (fun _ => 5) (fun _ => 9) { id := 0 } rfl

lemma editor_update_fst (isKeyDown : Nat → Bool) :
    ∀ kbs : List Keybind, (Editor.Update isKeyDown kbs).1 =
      kbs.map (fun kb => { kb with state := isKeyDown kb.key }) := by
  intro kbs
  induction kbs with
  | nil => rfl
  | cons kb rest ih => simp [Editor.Update, ih]

lemma editor_update_snd (isKeyDown : Nat → Bool) :
    ∀ kbs : List Keybind, (Editor.Update isKeyDown kbs).2 =
      (kbs.filter (fun kb => isKeyDown kb.key && !kb.state)).map
        (fun kb => kb.callbackId) := by
  intro kbs
  induction kbs with
  | nil => rfl
  | cons kb rest ih =>
    by_cases h : isKeyDown kb.key && !kb.state
    · simp [Editor.Update, List.filter_cons, h, ih]
    · simp [Editor.Update, List.filter_cons, h, ih]

/-- C9: a keybind's callback is invoked by Editor::Update exactly on a rising
edge — the key is down this update and the recorded state was not-pressed
(second conjunct) — the recorded state after Update equals the observed
pressed value (first conjunct), and holding a key across consecutive updates
invokes the callback only once: a second update under the same key state
invokes nothing (third conjunct). -/
theorem keybind_rising_edge (isKeyDown : Nat → Bool) (kbs : List Keybind) :
    ((Editor.Update isKeyDown kbs).1 =
       kbs.map (fun kb => { kb with state := isKeyDown kb.key })) ∧
    ((Editor.Update isKeyDown kbs).2 =
       (kbs.filter (fun kb => isKeyDown kb.key && !kb.state)).map
         (fun kb => kb.callbackId)) ∧
    ((Editor.Update isKeyDown ((Editor.Update isKeyDown kbs).1)).2 = []) := by
  refine ⟨editor_update_fst isKeyDown kbs, editor_update_snd isKeyDown kbs, ?_⟩
  rw [editor_update_fst isKeyDown kbs, editor_update_snd isKeyDown]
  induction kbs with
  | nil => rfl
  | cons kb rest ih => simp [List.filter_cons, ih]

lemma lookup_SetVariable {β : Type} :
    ∀ (store : List (Nat × β)) (cvar : Nat) (v newV : β),
      store.lookup cvar = some v →
      (CvarManager.SetVariable store cvar newV).lookup cvar = some newV := by
  intro store
  induction store with
  | nil => intro cvar v newV h; simp [List.lookup] at h
  | cons e rest ih =>
    intro cvar v newV h
    obtain ⟨k, w⟩ := e
    by_cases hk : k = cvar
    · subst hk
      simp [CvarManager.SetVariable, List.lookup_cons]
    · have hk2 : (cvar == k) = false := beq_false_of_ne (Ne.symm hk)
      simp only [List.lookup_cons, hk2] at h
      have hrec := ih cvar v newV h
      simp only [CvarManager.SetVariable, List.map_cons] at hrec ⊢
      simp only [hk, if_false, List.lookup_cons, hk2]
      exact hrec

/-- C10: for CvarHelpers::Checkbox and both CvarHelpers::Slider overloads,
when the named console variable does not exist (the lookup modelling
GetVariable returns none) the store is returned unchanged with no SetVariable
call (conjuncts 1, 3, 5); when it exists, SetVariable is called if and only if
the widget produced a value different from the stored value — for the
checkbox, the widget's boolean promoted back to an int is compared with the
stored int — and then the store holds the widget's value under the cvar, while
without a call the store is unchanged (conjuncts 2, 4, 6). -/
theorem cvar_widgets_set_iff_changed :
    (∀ (store : List (Nat × Int)) (cvar : Nat) (widget : Bool → Bool),
       store.lookup cvar = none → CvarHelpers.Checkbox store cvar widget = (store, false)) ∧
    (∀ (store : List (Nat × Int)) (cvar : Nat) (widget : Bool → Bool) (v : Int),
       store.lookup cvar = some v →
       (((CvarHelpers.Checkbox store cvar widget).2 = true) ↔ checkboxResultInt widget v ≠ v) ∧
       ((CvarHelpers.Checkbox store cvar widget).2 = false →
          (CvarHelpers.Checkbox store cvar widget).1 = store) ∧
       ((CvarHelpers.Checkbox store cvar widget).2 = true →
          (CvarHelpers.Checkbox store cvar widget).1.lookup cvar =
            some (checkboxResultInt widget v))) ∧
    (∀ (store : List (Nat × ℚ)) (cvar : Nat) (widget : ℚ → ℚ),
       store.lookup cvar = none → CvarHelpers.SliderFloat store cvar widget = (store, false)) ∧
    (∀ (store : List (Nat × ℚ)) (cvar : Nat) (widget : ℚ → ℚ) (v : ℚ),
       store.lookup cvar = some v →
       (((CvarHelpers.SliderFloat store cvar widget).2 = true) ↔ widget v ≠ v) ∧
       ((CvarHelpers.SliderFloat store cvar widget).2 = false →
          (CvarHelpers.SliderFloat store cvar widget).1 = store) ∧
       ((CvarHelpers.SliderFloat store cvar widget).2 = true →
          (CvarHelpers.SliderFloat store cvar widget).1.lookup cvar = some (widget v))) ∧
    (∀ (store : List (Nat × Int)) (cvar : Nat) (widget : Int → Int),
       store.lookup cvar = none → CvarHelpers.SliderInt store cvar widget = (store, false)) ∧
    (∀ (store : List (Nat × Int)) (cvar : Nat) (widget : Int → Int) (v : Int),
       store.lookup cvar = some v →
       (((CvarHelpers.SliderInt store cvar widget).2 = true) ↔ widget v ≠ v) ∧
       ((CvarHelpers.SliderInt store cvar widget).2 = false →
          (CvarHelpers.SliderInt store cvar widget).1 = store) ∧
       ((CvarHelpers.SliderInt store cvar widget).2 = true →
          (CvarHelpers.SliderInt store cvar widget).1.lookup cvar = some (widget v))) := by
  refine ⟨?_, ?_, ?_, ?_, ?_, ?_⟩
  · intro store cvar widget h
    simp [CvarHelpers.Checkbox, h]
  · intro store cvar widget v h
    have hspec : CvarHelpers.Checkbox store cvar widget =
        if checkboxResultInt widget v = v then (store, false)
        else (CvarManager.SetVariable store cvar (checkboxResultInt widget v), true) := by
      simp only [CvarHelpers.Checkbox, h, checkboxResultInt]
      by_cases hc : (if widget (v != 0) then (1 : Int) else 0) = v
      · simp [hc]
      · have hb : ((if widget (v != 0) then (1 : Int) else 0) != v) = true := bne_iff_ne.mpr hc
        simp [hb, hc]
    by_cases hc : checkboxResultInt widget v = v
    · rw [hspec, if_pos hc]
      exact ⟨by simp [hc], fun _ => rfl, by simp⟩
    · rw [hspec, if_neg hc]
      exact ⟨by simp [hc], by simp, fun _ =>
        lookup_SetVariable store cvar v (checkboxResultInt widget v) h⟩
  · intro store cvar widget h
    simp [CvarHelpers.SliderFloat, h]
  · intro store cvar widget v h
    have hspec : CvarHelpers.SliderFloat store cvar widget =
        if widget v = v then (store, false)
        else (CvarManager.SetVariable store cvar (widget v), true) := by
      simp only [CvarHelpers.SliderFloat, h]
      by_cases hc : widget v = v
      · simp [hc]
      · have hb : (widget v != v) = true := bne_iff_ne.mpr hc
        simp [hb, hc]
    by_cases hc : widget v = v
    · rw [hspec, if_pos hc]
      exact ⟨by simp [hc], fun _ => rfl, by simp⟩
    · rw [hspec, if_neg hc]
      exact ⟨by simp [hc], by simp, fun _ =>
        lookup_SetVariable store cvar v (widget v) h⟩
  · intro store cvar widget h
    simp [CvarHelpers.SliderInt, h]
  · intro store cvar widget v h
    have hspec : CvarHelpers.SliderInt store cvar widget =
        if widget v = v then (store, false)
        else (CvarManager.SetVariable store cvar (widget v), true) := by
      simp only [CvarHelpers.SliderInt, h]
      by_cases hc : widget v = v
      · simp [hc]
      · have hb : (widget v != v) = true := bne_iff_ne.mpr hc
        simp [hb, hc]
    by_cases hc : widget v = v
    · rw [hspec, if_pos hc]
      exact ⟨by simp [hc], fun _ => rfl, by simp⟩
    · rw [hspec, if_neg hc]
      exact ⟨by simp [hc], by simp, fun _ =>
        lookup_SetVariable store cvar v (widget v) h⟩

/-- Witness for C10: a store holding 2 under cvar 1; the checkbox widget keeps
the displayed boolean true, whose int promotion 1 differs from the stored 2,
so SetVariable is called. -/
theorem cvar_widgets_set_iff_changed_witness :
    (CvarHelpers.Checkbox [(1, (2 : Int))] 1 (fun b => b)).2 = true :=
  ((cvar_widgets_set_iff_changed.2.1 [(1, (2 : Int))] 1 (fun b => b) 2 rfl).1).mpr
    (by decide)

end VanguardSpec
